import Mathlib

/-!
Verification of the brand-extraction service against its specification.

The development shallowly embeds the pure computational parts of the
repository:

* `GeminiService.calculate_color_similarity` (src/mirage/services/gemini.py,
  lines 190-215): hex color parsing and the Euclidean RGB similarity score.
* the model-response parser inside `GeminiService.generate_replica`
  (gemini.py, lines 110-137), including the fenced-code-block fallback and
  the `:root` CSS prefix assembly.
* `GeminiService._brand_to_css_variables` (gemini.py, lines 28-50).
* the pure comparison metrics of `compare_brands` (src/mirage/tools.py,
  lines 124-142).
* the normalization step of `FirecrawlService.extract_brand`
  (src/mirage/services/firecrawl.py, lines 139-185).

Strings are modeled as `List Char`; Python dictionaries with optional keys
are modeled as structures of `Option` fields (a `none` field stands for an
absent key).  Python floats are idealized as real numbers: `x ** 0.5`
becomes `Real.sqrt` and `round(x, 3)` becomes rounding of `1000 * x` to the
nearest integer.  For the inputs reachable in this code the rounded
quantity is never exactly halfway between two integers (the tie would force
`2000` to divide an odd multiple of `765`), so the half-even tie rule of
Python and the half-up rule of `round` agree on every reachable value.
-/

/-! ## Python string helpers

`isPyWs` models the ASCII whitespace accepted by `str.strip()` and by
`int(s, 16)` around the digits.  (Python also accepts some non-ASCII
whitespace; the inputs of this code are ASCII.) -/

def isPyWs (c : Char) : Bool :=
  c == ' ' || c == '\t' || c == '\n' || c == '\r' || c == '\x0b' || c == '\x0c'

/-- Model of Python `str.strip()`: remove leading and trailing whitespace. -/
def pyStrip (s : List Char) : List Char :=
  ((s.dropWhile isPyWs).reverse.dropWhile isPyWs).reverse

/-- The characters accepted as hexadecimal digits by `int(s, 16)`. -/
def hexDigits : List Char := "0123456789abcdefABCDEF".data

def isHexDigit (c : Char) : Bool := hexDigits.contains c

/-- Numeric value of a hexadecimal digit character. -/
def hexVal (c : Char) : Nat :=
  if '0' ≤ c ∧ c ≤ '9' then c.toNat - '0'.toNat
  else if 'a' ≤ c ∧ c ≤ 'f' then c.toNat - 'a'.toNat + 10
  else if 'A' ≤ c ∧ c ≤ 'F' then c.toNat - 'A'.toNat + 10
  else 0

/-- Value of a nonempty run of hexadecimal digits; `none` when the run is
empty or contains a non-digit. -/
def hexRunVal : List Char → Option Nat
  | [] => none
  | c :: cs =>
    if (c :: cs).all isHexDigit then
      some ((c :: cs).foldl (fun n d => 16 * n + hexVal d) 0)
    else none

/-- Model of Python `int(s, 16)`: surrounding whitespace is stripped, an
optional single sign is accepted, then a nonempty run of hex digits is
required; otherwise the call raises `ValueError`, modeled as `none`.
(Underscore digit separators and the `0x` prefix of Python need at least
three characters and the callers below pass slices of at most two
characters, so they are not modeled.) -/
def pyIntHex (s : List Char) : Option Int :=
  let t := pyStrip s
  if t.head? = some '+' then (hexRunVal t.tail).map Int.ofNat
  else if t.head? = some '-' then (hexRunVal t.tail).map (fun n => -(n : Int))
  else (hexRunVal t).map Int.ofNat

/-! ## Color similarity (gemini.py, lines 190-215) -/

/-- Embeds the inner `hex_to_rgb` of `calculate_color_similarity`: strip all
leading `#` characters (`str.lstrip`), then parse the slices `[0:2]`,
`[2:4]`, `[4:6]` with `int(·, 16)`.  A `ValueError` in any slice aborts the
tuple, modeled as `none`. -/
def hex_to_rgb (s : List Char) : Option (Int × Int × Int) :=
  let t := s.dropWhile (fun c => c == '#')
  match pyIntHex (t.take 2), pyIntHex ((t.drop 2).take 2),
        pyIntHex ((t.drop 4).take 2) with
  | some r, some g, some b => some (r, g, b)
  | _, _, _ => none

/-- Squared Euclidean distance between two RGB triples. -/
def rgbDist2 (a b : Int × Int × Int) : Int :=
  (a.1 - b.1) ^ 2 + (a.2.1 - b.2.1) ^ 2 + (a.2.2 - b.2.2) ^ 2

/-- Model of Python `round(x, 3)` on the idealized reals. -/
noncomputable def pyRound3 (x : ℝ) : ℝ := ((round (x * 1000) : ℤ) : ℝ) / 1000

/-- Embeds `GeminiService.calculate_color_similarity`: parse both colors,
take the Euclidean RGB distance, normalize by the largest possible distance
and round to three decimals; any parse failure yields `0.0` via the
`try/except` of the source. -/
noncomputable def calculate_color_similarity (color1 color2 : String) : ℝ :=
  match hex_to_rgb color1.data, hex_to_rgb color2.data with
  | some c1, some c2 =>
      pyRound3 (1 - Real.sqrt ((rgbDist2 c1 c2 : ℤ) : ℝ) /
        Real.sqrt ((255 : ℝ) ^ 2 * 3))
  | _, _ => 0

/-- A valid 6-hex-digit color string, with or without a leading `#`. -/
def validHexColor (s : String) : Bool :=
  let t := if s.data.head? = some '#' then s.data.tail else s.data
  t.length == 6 && t.all isHexDigit

/-! ## Facts about hex parsing -/

theorem isHexDigit_not_ws {c : Char} (h : isHexDigit c = true) :
    isPyWs c = false := by
  have hm : c ∈ hexDigits := by
    simpa [isHexDigit, List.contains] using h
  fin_cases hm <;> decide

theorem isHexDigit_ne_plus {c : Char} (h : isHexDigit c = true) :
    c ≠ '+' := by
  have hm : c ∈ hexDigits := by
    simpa [isHexDigit, List.contains] using h
  fin_cases hm <;> decide

theorem isHexDigit_ne_minus {c : Char} (h : isHexDigit c = true) :
    c ≠ '-' := by
  have hm : c ∈ hexDigits := by
    simpa [isHexDigit, List.contains] using h
  fin_cases hm <;> decide

theorem isHexDigit_ne_hash {c : Char} (h : isHexDigit c = true) :
    (c == '#') = false := by
  have hm : c ∈ hexDigits := by
    simpa [isHexDigit, List.contains] using h
  fin_cases hm <;> decide

theorem hexVal_le_15 {c : Char} (h : isHexDigit c = true) :
    hexVal c ≤ 15 := by
  have hm : c ∈ hexDigits := by
    simpa [isHexDigit, List.contains] using h
  fin_cases hm <;> decide

/-- Parsing a two-hex-digit slice. -/
theorem pyIntHex_pair {a b : Char} (ha : isHexDigit a = true)
    (hb : isHexDigit b = true) :
    pyIntHex [a, b] = some ((16 * hexVal a + hexVal b : Nat) : Int) := by
  have hstrip : pyStrip [a, b] = [a, b] := by
    simp [pyStrip, List.dropWhile, isHexDigit_not_ws ha, isHexDigit_not_ws hb]
  have hrun : hexRunVal [a, b] =
      some (16 * hexVal a + hexVal b) := by
    simp [hexRunVal, ha, hb, List.foldl]
  simp [pyIntHex, hstrip, hrun, isHexDigit_ne_plus ha, isHexDigit_ne_minus ha]

theorem exists_six {l : List Char} (h : l.length = 6) :
    ∃ a b c d e f, l = [a, b, c, d, e, f] := by
  rcases l with _ | ⟨a, _ | ⟨b, _ | ⟨c, _ | ⟨d, _ | ⟨e, _ | ⟨f, _ | ⟨g, t⟩⟩⟩⟩⟩⟩⟩ <;>
    simp_all

/-- On six hex digits, with or without one leading hash, the parser returns
the three channel values. -/
theorem hex_to_rgb_digits {a b c d e f : Char} (ha : isHexDigit a = true)
    (hb : isHexDigit b = true) (hc : isHexDigit c = true)
    (hd : isHexDigit d = true) (he : isHexDigit e = true)
    (hf : isHexDigit f = true) :
    hex_to_rgb [a, b, c, d, e, f] =
      some (((16 * hexVal a + hexVal b : Nat) : Int),
            ((16 * hexVal c + hexVal d : Nat) : Int),
            ((16 * hexVal e + hexVal f : Nat) : Int)) ∧
    hex_to_rgb ('#' :: [a, b, c, d, e, f]) =
      some (((16 * hexVal a + hexVal b : Nat) : Int),
            ((16 * hexVal c + hexVal d : Nat) : Int),
            ((16 * hexVal e + hexVal f : Nat) : Int)) := by
  have hdw : [a, b, c, d, e, f].dropWhile (fun c => c == '#') =
      [a, b, c, d, e, f] := by
    simp [List.dropWhile, isHexDigit_ne_hash ha]
  constructor <;>
    simp [hex_to_rgb, List.dropWhile, hdw, isHexDigit_ne_hash ha,
      pyIntHex_pair ha hb, pyIntHex_pair hc hd, pyIntHex_pair he hf]

/-- A valid color string parses to a triple of channels, each in `[0, 255]`. -/
theorem validHexColor_parse {s : String} (h : validHexColor s = true) :
    ∃ v : Int × Int × Int, hex_to_rgb s.data = some v ∧
      0 ≤ v.1 ∧ v.1 ≤ 255 ∧ 0 ≤ v.2.1 ∧ v.2.1 ≤ 255 ∧
      0 ≤ v.2.2 ∧ v.2.2 ≤ 255 := by
  rw [validHexColor, Bool.and_eq_true, beq_iff_eq, List.all_eq_true] at h
  obtain ⟨h6, hall⟩ := h
  by_cases hh : s.data.head? = some '#'
  · rw [if_pos hh] at h6 hall
    obtain ⟨a, b, c, d, e, f, ht⟩ := exists_six h6
    have ha := hall a (by rw [ht]; simp)
    have hb := hall b (by rw [ht]; simp)
    have hc := hall c (by rw [ht]; simp)
    have hd := hall d (by rw [ht]; simp)
    have he := hall e (by rw [ht]; simp)
    have hf := hall f (by rw [ht]; simp)
    have hsd : s.data = '#' :: [a, b, c, d, e, f] := by
      rcases hsd : s.data with _ | ⟨x, r⟩
      · rw [hsd] at hh; simp at hh
      · rw [hsd] at hh ht
        simp at hh ht
        rw [hh, ht]
    refine ⟨_, by rw [hsd]; exact (hex_to_rgb_digits ha hb hc hd he hf).2, ?_⟩
    have b1 := hexVal_le_15 ha; have b2 := hexVal_le_15 hb
    have b3 := hexVal_le_15 hc; have b4 := hexVal_le_15 hd
    have b5 := hexVal_le_15 he; have b6 := hexVal_le_15 hf
    refine ⟨by positivity, ?_, by positivity, ?_, by positivity, ?_⟩ <;>
      · simp only []
        exact_mod_cast by omega
  · rw [if_neg hh] at h6 hall
    obtain ⟨a, b, c, d, e, f, ht⟩ := exists_six h6
    have ha := hall a (by rw [ht]; simp)
    have hb := hall b (by rw [ht]; simp)
    have hc := hall c (by rw [ht]; simp)
    have hd := hall d (by rw [ht]; simp)
    have he := hall e (by rw [ht]; simp)
    have hf := hall f (by rw [ht]; simp)
    refine ⟨_, by rw [ht]; exact (hex_to_rgb_digits ha hb hc hd he hf).1, ?_⟩
    have b1 := hexVal_le_15 ha; have b2 := hexVal_le_15 hb
    have b3 := hexVal_le_15 hc; have b4 := hexVal_le_15 hd
    have b5 := hexVal_le_15 he; have b6 := hexVal_le_15 hf
    refine ⟨by positivity, ?_, by positivity, ?_, by positivity, ?_⟩ <;>
      · simp only []
        exact_mod_cast by omega

theorem pyRound3_bounds {x : ℝ} (h0 : 0 ≤ x) (h1 : x ≤ 1) :
    0 ≤ pyRound3 x ∧ pyRound3 x ≤ 1 := by
  have hlo : (0 : ℤ) ≤ round (x * 1000) := by
    rw [round_eq]
    exact Int.floor_nonneg.mpr (by nlinarith)
  have hhi : round (x * 1000) ≤ 1000 := by
    rw [round_eq]
    have : (⌊x * 1000 + 1 / 2⌋ : ℤ) < 1001 := Int.floor_lt.mpr (by nlinarith)
    omega
  constructor
  · exact div_nonneg (by exact_mod_cast hlo) (by norm_num)
  · rw [pyRound3, div_le_one (by norm_num)]
    exact_mod_cast hhi

theorem pyRound3_one : pyRound3 1 = 1 := by
  rw [pyRound3, one_mul, show ((1000 : ℝ)) = ((1000 : ℕ) : ℝ) by norm_num,
    round_natCast]
  norm_num

theorem pyRound3_zero : pyRound3 0 = 0 := by
  rw [pyRound3, zero_mul, round_zero]
  norm_num

theorem calculate_color_similarity_of_parse {a b : String}
    {va vb : Int × Int × Int} (h1 : hex_to_rgb a.data = some va)
    (h2 : hex_to_rgb b.data = some vb) :
    calculate_color_similarity a b =
      pyRound3 (1 - Real.sqrt ((rgbDist2 va vb : ℤ) : ℝ) /
        Real.sqrt ((255 : ℝ) ^ 2 * 3)) := by
  unfold calculate_color_similarity
  rw [h1, h2]

/-- C7: when parsing either color fails, the scorer returns `0.0` (the
`except (ValueError, IndexError)` branch); the function is total, so it
never raises. -/
theorem calculate_color_similarity_parse_fail (a b : String)
    (h : hex_to_rgb a.data = none ∨ hex_to_rgb b.data = none) :
    calculate_color_similarity a b = 0 := by
  unfold calculate_color_similarity
  cases h1 : hex_to_rgb a.data <;> cases h2 : hex_to_rgb b.data <;>
    rcases h with h | h <;> simp_all

theorem calculate_color_similarity_parse_fail_example :
    hex_to_rgb "notacolor".data = none ∧
    calculate_color_similarity "notacolor" "#123456" = 0 :=
  ⟨by decide,
   calculate_color_similarity_parse_fail "notacolor" "#123456"
     (Or.inl (by decide))⟩

/-- C10: the scorer is symmetric in its two arguments — the squared RGB
distance is symmetric and a parse failure of either argument yields `0.0`
in both orders. -/
theorem calculate_color_similarity_symm (a b : String) :
    calculate_color_similarity a b = calculate_color_similarity b a := by
  unfold calculate_color_similarity
  cases h1 : hex_to_rgb a.data with
  | none => cases h2 : hex_to_rgb b.data <;> simp
  | some va =>
    cases h2 : hex_to_rgb b.data with
    | none => simp
    | some vb =>
      have : rgbDist2 va vb = rgbDist2 vb va := by
        rcases va with ⟨x1, y1, z1⟩
        rcases vb with ⟨x2, y2, z2⟩
        simp [rgbDist2]
        ring
      simp only [this]

/-- C2: on valid 6-hex-digit colors (with or without a leading hash) the
similarity lies in `[0, 1]` and equals one minus the Euclidean RGB distance
divided by the maximal distance, rounded to three decimals; a color compared
with itself scores `1.0`, and black against white scores `0.0`. -/
theorem calculate_color_similarity_valid (a b : String)
    (ha : validHexColor a = true) (hb : validHexColor b = true) :
    (0 ≤ calculate_color_similarity a b ∧
      calculate_color_similarity a b ≤ 1) ∧
    calculate_color_similarity a b =
      pyRound3 (1 - Real.sqrt
        ((rgbDist2 ((hex_to_rgb a.data).getD (0, 0, 0))
                   ((hex_to_rgb b.data).getD (0, 0, 0)) : ℤ) : ℝ) /
        Real.sqrt ((255 : ℝ) ^ 2 * 3)) ∧
    calculate_color_similarity a a = 1 ∧
    calculate_color_similarity "#000000" "#FFFFFF" = 0 := by
  obtain ⟨va, hpa, ha0, ha1, ha2, ha3, ha4, ha5⟩ := validHexColor_parse ha
  obtain ⟨vb, hpb, hb0, hb1, hb2, hb3, hb4, hb5⟩ := validHexColor_parse hb
  have hM : (0 : ℝ) < Real.sqrt ((255 : ℝ) ^ 2 * 3) :=
    Real.sqrt_pos.mpr (by norm_num)
  have hd0 : (0 : ℤ) ≤ rgbDist2 va vb := by
    rcases va with ⟨x1, y1, z1⟩; rcases vb with ⟨x2, y2, z2⟩
    simp only [rgbDist2]
    positivity
  have hdle : rgbDist2 va vb ≤ 195075 := by
    rcases va with ⟨x1, y1, z1⟩; rcases vb with ⟨x2, y2, z2⟩
    simp only [rgbDist2] at *
    have e1 : (0 : ℤ) ≤ (255 - (x1 - x2)) * (255 + (x1 - x2)) := by nlinarith
    have e2 : (0 : ℤ) ≤ (255 - (y1 - y2)) * (255 + (y1 - y2)) := by nlinarith
    have e3 : (0 : ℤ) ≤ (255 - (z1 - z2)) * (255 + (z1 - z2)) := by nlinarith
    nlinarith
  have hcast : ((rgbDist2 va vb : ℤ) : ℝ) ≤ (255 : ℝ) ^ 2 * 3 := by
    have : ((rgbDist2 va vb : ℤ) : ℝ) ≤ ((195075 : ℤ) : ℝ) := by
      exact_mod_cast hdle
    calc ((rgbDist2 va vb : ℤ) : ℝ) ≤ ((195075 : ℤ) : ℝ) := this
      _ = (255 : ℝ) ^ 2 * 3 := by norm_num
  have hratio : Real.sqrt ((rgbDist2 va vb : ℤ) : ℝ) /
      Real.sqrt ((255 : ℝ) ^ 2 * 3) ≤ 1 := by
    rw [div_le_one hM]
    exact Real.sqrt_le_sqrt hcast
  have hratio0 : 0 ≤ Real.sqrt ((rgbDist2 va vb : ℤ) : ℝ) /
      Real.sqrt ((255 : ℝ) ^ 2 * 3) :=
    div_nonneg (Real.sqrt_nonneg _) (Real.sqrt_nonneg _)
  have hmain := calculate_color_similarity_of_parse hpa hpb
  refine ⟨?_, ?_, ?_, ?_⟩
  · rw [hmain]
    exact pyRound3_bounds (by linarith) (by linarith)
  · rw [hmain, hpa, hpb]
    simp
  · have hself := calculate_color_similarity_of_parse hpa hpa
    have : rgbDist2 va va = 0 := by
      rcases va with ⟨x1, y1, z1⟩
      simp [rgbDist2]
    rw [hself, this]
    norm_num [Real.sqrt_zero, pyRound3_one]
  · have hblack : hex_to_rgb "#000000".data = some ((0 : Int), 0, 0) := by
      decide
    have hwhite : hex_to_rgb "#FFFFFF".data = some ((255 : Int), 255, 255) := by
      decide
    rw [calculate_color_similarity_of_parse hblack hwhite]
    have hdd : rgbDist2 (0, 0, 0) (255, 255, 255) = 195075 := by decide
    rw [hdd, show (((195075 : ℤ) : ℝ)) = (255 : ℝ) ^ 2 * 3 by norm_num,
      div_self (ne_of_gt hM)]
    norm_num [pyRound3_zero]

theorem calculate_color_similarity_valid_example :
    validHexColor "#3366CC" = true ∧ validHexColor "FFAA00" = true ∧
    ((0 ≤ calculate_color_similarity "#3366CC" "FFAA00" ∧
      calculate_color_similarity "#3366CC" "FFAA00" ≤ 1) ∧
     calculate_color_similarity "#3366CC" "FFAA00" =
       pyRound3 (1 - Real.sqrt
         ((rgbDist2 ((hex_to_rgb "#3366CC".data).getD (0, 0, 0))
                    ((hex_to_rgb "FFAA00".data).getD (0, 0, 0)) : ℤ) : ℝ) /
         Real.sqrt ((255 : ℝ) ^ 2 * 3)) ∧
     calculate_color_similarity "#3366CC" "#3366CC" = 1 ∧
     calculate_color_similarity "#000000" "#FFFFFF" = 0) :=
  ⟨by decide, by decide,
   calculate_color_similarity_valid "#3366CC" "FFAA00" (by decide) (by decide)⟩

/-! ## Splitting strings the way Python does

`pySplit sep s` models `s.split(sep)` for a nonempty separator: scan left to
right, cut at each non-overlapping occurrence.  `occursB sep s` models
`sep in s`.  `upToFirst` and `afterFirst` are the specification-side
notions: the text before, respectively after, the first occurrence of a
marker (`upToFirst` returns the whole text when the marker is absent).
`countOcc` counts the positions at which the marker matches. -/

def hitAt (sep s : List Char) : Bool := !sep.isEmpty && sep.isPrefixOf s

def occursB (sep : List Char) : List Char → Bool
  | [] => sep.isEmpty
  | c :: rest => hitAt sep (c :: rest) || occursB sep rest

def pySplitAux (sep : List Char) : List Char → Nat → List (List Char)
  | [], _ => [[]]
  | _ :: rest, k + 1 => pySplitAux sep rest k
  | c :: rest, 0 =>
    if hitAt sep (c :: rest) then [] :: pySplitAux sep rest (sep.length - 1)
    else (c :: (pySplitAux sep rest 0).headD []) :: (pySplitAux sep rest 0).tail

def pySplit (sep s : List Char) : List (List Char) := pySplitAux sep s 0

theorem pySplitAux_eq_drop (sep : List Char) :
    ∀ (s : List Char) (k : Nat), pySplitAux sep s k = pySplit sep (s.drop k) := by
  intro s
  induction s with
  | nil => intro k; cases k <;> rfl
  | cons c rest ih =>
    intro k
    cases k with
    | zero => rfl
    | succ m =>
      rw [List.drop_succ_cons]
      exact ih m

theorem pySplit_cons (sep : List Char) (c : Char) (rest : List Char) :
    pySplit sep (c :: rest) =
      if hitAt sep (c :: rest) then
        [] :: pySplit sep (rest.drop (sep.length - 1))
      else
        (c :: (pySplit sep rest).headD []) :: (pySplit sep rest).tail := by
  show pySplitAux sep (c :: rest) 0 = _
  rw [pySplitAux, pySplitAux_eq_drop]
  rfl

def upToFirst (sep : List Char) : List Char → List Char
  | [] => []
  | c :: rest => if hitAt sep (c :: rest) then [] else c :: upToFirst sep rest

def afterFirst (sep : List Char) : List Char → List Char
  | [] => []
  | c :: rest =>
    if hitAt sep (c :: rest) then rest.drop (sep.length - 1)
    else afterFirst sep rest

def countOcc (sep : List Char) : List Char → Nat
  | [] => 0
  | c :: rest => (if hitAt sep (c :: rest) then 1 else 0) + countOcc sep rest

theorem pySplit_ne_nil (sep s : List Char) : pySplit sep s ≠ [] := by
  cases s with
  | nil => simp [pySplit, pySplitAux]
  | cons c rest =>
    rw [pySplit_cons]
    split <;> simp

theorem pySplit_headD (sep s : List Char) :
    (pySplit sep s).headD [] = upToFirst sep s := by
  induction s with
  | nil => simp [pySplit, pySplitAux, upToFirst]
  | cons c rest ih =>
    rw [pySplit_cons, upToFirst]
    split
    · simp
    · simp only [List.headD_cons]
      rw [ih]

theorem pySplit_of_occurs {sep s : List Char} (hsep : sep ≠ [])
    (h : occursB sep s = true) :
    pySplit sep s = upToFirst sep s :: pySplit sep (afterFirst sep s) := by
  induction s with
  | nil =>
    rw [occursB] at h
    simp [List.isEmpty_iff] at h
    exact absurd h hsep
  | cons c rest ih =>
    rw [occursB, Bool.or_eq_true] at h
    rw [pySplit_cons, upToFirst, afterFirst]
    by_cases hc : hitAt sep (c :: rest) = true
    · rw [if_pos hc, if_pos hc, if_pos hc]
    · rcases h with h | h
      · exact absurd h hc
      · rw [if_neg hc, if_neg hc, if_neg hc, ih h, List.headD_cons,
          List.tail_cons]

theorem pySplit_of_not_occurs {sep s : List Char} (h : occursB sep s = false) :
    pySplit sep s = [s] := by
  induction s with
  | nil => simp [pySplit, pySplitAux]
  | cons c rest ih =>
    rw [occursB] at h
    have h1 : hitAt sep (c :: rest) = false := by
      cases hq : hitAt sep (c :: rest) <;> simp_all
    have h2 : occursB sep rest = false := by
      cases hq : occursB sep rest <;> simp_all
    rw [pySplit_cons, if_neg (by simp [h1]), ih h2]
    simp

theorem upToFirst_of_not_occurs {sep s : List Char}
    (h : occursB sep s = false) : upToFirst sep s = s := by
  induction s with
  | nil => simp [upToFirst]
  | cons c rest ih =>
    rw [occursB] at h
    have h1 : hitAt sep (c :: rest) = false := by
      cases hq : hitAt sep (c :: rest) <;> simp_all
    have h2 : occursB sep rest = false := by
      cases hq : occursB sep rest <;> simp_all
    rw [upToFirst, if_neg (by simp [h1]), ih h2]

theorem one_lt_pySplit_length {sep s : List Char} (hsep : sep ≠ [])
    (h : occursB sep s = true) : 1 < (pySplit sep s).length := by
  rw [pySplit_of_occurs hsep h, List.length_cons]
  have := pySplit_ne_nil sep (afterFirst sep s)
  have : 0 < (pySplit sep (afterFirst sep s)).length :=
    List.length_pos.mpr this
  omega

theorem pySplit_getD_one {sep s : List Char} (hsep : sep ≠ [])
    (h : occursB sep s = true) :
    (pySplit sep s).getD 1 [] = upToFirst sep (afterFirst sep s) := by
  rw [pySplit_of_occurs hsep h]
  rcases hq : pySplit sep (afterFirst sep s) with _ | ⟨u, v⟩
  · exact absurd hq (pySplit_ne_nil sep _)
  · have := pySplit_headD sep (afterFirst sep s)
    rw [hq] at this
    simpa using this

theorem countOcc_drop_le (sep : List Char) :
    ∀ (n : Nat) (s : List Char), countOcc sep (s.drop n) ≤ countOcc sep s := by
  intro n
  induction n with
  | zero => intro s; simp
  | succ m ih =>
    intro s
    cases s with
    | nil => simp [countOcc]
    | cons c rest =>
      rw [List.drop_succ_cons, countOcc]
      have := ih rest
      omega

theorem countOcc_zero_iff {sep : List Char} (hsep : sep ≠ []) (s : List Char) :
    countOcc sep s = 0 ↔ occursB sep s = false := by
  induction s with
  | nil =>
    simp [countOcc, occursB, List.isEmpty_iff, hsep]
  | cons c rest ih =>
    rw [countOcc, occursB]
    by_cases hc : hitAt sep (c :: rest) = true
    · simp only [hc, if_true, Bool.true_or]
      constructor
      · intro h; omega
      · intro h; cases h
    · have hcf : hitAt sep (c :: rest) = false := by simpa using hc
      simp [hcf, ih]

theorem countOcc_afterFirst {sep s : List Char} (hsep : sep ≠ [])
    (h : occursB sep s = true) :
    countOcc sep (afterFirst sep s) + 1 ≤ countOcc sep s := by
  induction s with
  | nil =>
    rw [occursB] at h
    simp [List.isEmpty_iff] at h
    exact absurd h hsep
  | cons c rest ih =>
    rw [occursB, Bool.or_eq_true] at h
    rw [afterFirst, countOcc]
    by_cases hc : hitAt sep (c :: rest) = true
    · rw [if_pos hc, if_pos hc]
      have := countOcc_drop_le sep (sep.length - 1) rest
      omega
    · rcases h with h | h
      · exact absurd h hc
      · rw [if_neg hc, if_neg hc]
        have := ih h
        omega

theorem occursB_of_countOcc_one {sep s : List Char} (hsep : sep ≠ [])
    (h : countOcc sep s = 1) : occursB sep s = true := by
  by_cases ho : occursB sep s = true
  · exact ho
  · rw [Bool.not_eq_true] at ho
    rw [(countOcc_zero_iff hsep s).mpr ho] at h
    omega

theorem not_occurs_afterFirst {sep s : List Char} (hsep : sep ≠ [])
    (h : countOcc sep s = 1) : occursB sep (afterFirst sep s) = false := by
  have ho := occursB_of_countOcc_one hsep h
  have := countOcc_afterFirst hsep ho
  exact (countOcc_zero_iff hsep _).mp (by omega)

/-! ## The generated-code parser (gemini.py, lines 110-130) -/

def htmlMarker : List Char := "---HTML---".data

def cssMarker : List Char := "---CSS---".data

def endMarker : List Char := "---END---".data

def fenceHtmlTag : List Char := "```html".data

def fenceCssTag : List Char := "```css".data

def fenceTag : List Char := "```".data

/-- Embeds the `else` branch of the parser: extract fenced code blocks
tagged `html` and `css`; a missing tag leaves the corresponding string
empty. -/
def fallback_extract (text : List Char) : List Char × List Char :=
  (if occursB fenceHtmlTag text then
     pyStrip ((pySplit fenceTag ((pySplit fenceHtmlTag text).getD 1 [])).headD [])
   else [],
   if occursB fenceCssTag text then
     pyStrip ((pySplit fenceTag ((pySplit fenceCssTag text).getD 1 [])).headD [])
   else [])

/-- Embeds the response parser of `GeminiService.generate_replica` (lines
110-130): when both `---HTML---` and `---CSS---` occur, split on the
markers (guarded indexing and `.strip()` as in the source, starting from
empty strings); otherwise fall back to fenced code blocks. -/
def generate_replica_parse (text : List Char) : List Char × List Char :=
  if occursB htmlMarker text && occursB cssMarker text then
    (if 1 < (pySplit htmlMarker text).length then
       pyStrip ((pySplit cssMarker ((pySplit htmlMarker text).getD 1 [])).headD [])
     else [],
     if occursB cssMarker text then
       if 1 < (pySplit cssMarker text).length then
         pyStrip ((pySplit endMarker ((pySplit cssMarker text).getD 1 [])).headD [])
       else []
     else [])
  else fallback_extract text

/-- C1 (amended): when each of the two markers occurs exactly once, the
html is the trimmed text after `---HTML---` up to the next `---CSS---` (to
the end of the text if none follows) and the css body is the trimmed text
after `---CSS---` up to the next `---END---` (to the end of the text if
`---END---` is absent); the parse is total.  The amendment restricts the
original claim to unique marker occurrences: with a duplicated marker the
source truncates at the second occurrence, see the counterexample. -/
theorem generate_replica_parse_markers_unique (t : List Char)
    (h1 : countOcc htmlMarker t = 1) (h2 : countOcc cssMarker t = 1) :
    generate_replica_parse t =
      (pyStrip (upToFirst cssMarker (afterFirst htmlMarker t)),
       pyStrip (upToFirst endMarker (afterFirst cssMarker t))) := by
  have hsH : htmlMarker ≠ [] := by decide
  have hsC : cssMarker ≠ [] := by decide
  have ho1 := occursB_of_countOcc_one hsH h1
  have ho2 := occursB_of_countOcc_one hsC h2
  unfold generate_replica_parse
  rw [if_pos (by rw [ho1, ho2]; rfl)]
  congr 1
  · rw [if_pos (one_lt_pySplit_length hsH ho1), pySplit_getD_one hsH ho1,
      upToFirst_of_not_occurs (not_occurs_afterFirst hsH h1), pySplit_headD]
  · rw [if_pos ho2, if_pos (one_lt_pySplit_length hsC ho2),
      pySplit_getD_one hsC ho2,
      upToFirst_of_not_occurs (not_occurs_afterFirst hsC h2), pySplit_headD]

theorem generate_replica_parse_markers_unique_example :
    countOcc htmlMarker
      "---HTML---\n<div>Hi</div>\n---CSS---\n.x\x7bcolor:red\x7d\n---END---".data = 1 ∧
    countOcc cssMarker
      "---HTML---\n<div>Hi</div>\n---CSS---\n.x\x7bcolor:red\x7d\n---END---".data = 1 ∧
    generate_replica_parse
      "---HTML---\n<div>Hi</div>\n---CSS---\n.x\x7bcolor:red\x7d\n---END---".data =
      ("<div>Hi</div>".data, ".x\x7bcolor:red\x7d".data) :=
  ⟨by decide, by decide,
   (generate_replica_parse_markers_unique _ (by decide) (by decide)).trans
     (by decide)⟩

/-- C1 counterexample: with a second `---HTML---` marker between the first
one and `---CSS---`, the source truncates the html at the second marker
instead of returning everything strictly between `---HTML---` and
`---CSS---`. -/
theorem generate_replica_parse_duplicate_marker_cex :
    occursB htmlMarker "---HTML---A---HTML---B---CSS---C---END---".data = true ∧
    occursB cssMarker "---HTML---A---HTML---B---CSS---C---END---".data = true ∧
    (generate_replica_parse "---HTML---A---HTML---B---CSS---C---END---".data).1 =
      "A".data ∧
    pyStrip (upToFirst cssMarker
      (afterFirst htmlMarker "---HTML---A---HTML---B---CSS---C---END---".data)) =
      "A---HTML---B".data ∧
    "A".data ≠ "A---HTML---B".data := by
  refine ⟨by decide, by decide, ?_, by decide, by decide⟩
  decide

/-- C9: when the marker pair is not both present and no fenced code block
tagged html or css occurs, both html and css come out empty; the parse is
total, so no exception is raised. -/
theorem generate_replica_parse_no_conventions (t : List Char)
    (h : ¬(occursB htmlMarker t = true ∧ occursB cssMarker t = true))
    (hbh : occursB fenceHtmlTag t = false)
    (hbc : occursB fenceCssTag t = false) :
    generate_replica_parse t = ([], []) := by
  have hcond : (occursB htmlMarker t && occursB cssMarker t) = false := by
    cases hq1 : occursB htmlMarker t <;> cases hq2 : occursB cssMarker t <;>
      simp_all
  unfold generate_replica_parse fallback_extract
  rw [if_neg (by simp [hcond]), if_neg (by simp [hbh]), if_neg (by simp [hbc])]

theorem generate_replica_parse_no_conventions_example :
    occursB htmlMarker "I could not produce the component.".data = false ∧
    occursB fenceHtmlTag "I could not produce the component.".data = false ∧
    occursB fenceCssTag "I could not produce the component.".data = false ∧
    generate_replica_parse "I could not produce the component.".data =
      ([], []) :=
  ⟨by decide, by decide, by decide,
   generate_replica_parse_no_conventions _ (by decide) (by decide) (by decide)⟩

/-- C8 (amended): a response containing `---HTML---` but not `---CSS---`
takes the fenced-code-block fallback branch — the fallback fires whenever
the two markers are not BOTH present, not only when the pair is fully
absent — and when the text also contains no fence tagged html and none
tagged css, both html and css come out empty.  (The converse direction
does not hold: a fence tag whose content strips to nothing also leaves the
output empty.) -/
theorem generate_replica_parse_fallback_fires (t : List Char)
    (hh : occursB htmlMarker t = true) (hc : occursB cssMarker t = false) :
    generate_replica_parse t = fallback_extract t ∧
    (occursB fenceHtmlTag t = false → occursB fenceCssTag t = false →
      generate_replica_parse t = ([], [])) := by
  have hcond : (occursB htmlMarker t && occursB cssMarker t) = false := by
    rw [hh, hc]
    rfl
  constructor
  · unfold generate_replica_parse
    rw [if_neg (by simp [hcond])]
  · intro hbh hbc
    unfold generate_replica_parse fallback_extract
    rw [if_neg (by simp [hcond]), if_neg (by simp [hbh]),
      if_neg (by simp [hbc])]

theorem generate_replica_parse_fallback_fires_example :
    occursB htmlMarker "---HTML---only".data = true ∧
    occursB cssMarker "---HTML---only".data = false ∧
    (generate_replica_parse "---HTML---only".data =
       fallback_extract "---HTML---only".data ∧
     (occursB fenceHtmlTag "---HTML---only".data = false →
       occursB fenceCssTag "---HTML---only".data = false →
       generate_replica_parse "---HTML---only".data = ([], []))) :=
  ⟨by decide, by decide,
   generate_replica_parse_fallback_fires _ (by decide) (by decide)⟩

/-- C8 counterexample: a response with `---HTML---`, no `---CSS---` and a
fenced css block does reach the fallback and extracts a non-empty css, so
the parser does not yield empty strings and the fallback does fire although
the pair is only partially absent. -/
theorem generate_replica_parse_html_only_cex :
    occursB htmlMarker "---HTML---x```css\n.a\x7bcolor:red\x7d```".data = true ∧
    occursB cssMarker "---HTML---x```css\n.a\x7bcolor:red\x7d```".data = false ∧
    (generate_replica_parse "---HTML---x```css\n.a\x7bcolor:red\x7d```".data).2 =
      ".a\x7bcolor:red\x7d".data ∧
    ".a\x7bcolor:red\x7d".data ≠ ([] : List Char) := by
  refine ⟨by decide, by decide, ?_, by decide⟩
  decide

/-! ## Brand data model (src/mirage/schemas/brand.py)

Pydantic models become structures; `Optional` fields become `Option`, and
the pydantic field defaults become Lean field defaults.  The
`margins`/`padding` string mappings are modeled as association lists. -/

structure BrandColors where
  primary : String
  secondary : Option String := none
  accent : Option String := none
  background : Option String := none
  text : Option String := none
  palette : List String := []
  deriving DecidableEq

structure BrandTypography where
  headings : String
  body : String
  weights : List Int := [400, 600, 700]
  base_size : Option String := some "16px"
  line_height : Option String := some "1.5"
  deriving DecidableEq

structure BrandSpacing where
  grid : String := "8px"
  margins : List (String × String) := []
  padding : List (String × String) := []
  gap : Option String := none
  deriving DecidableEq

structure ButtonStyle where
  bg : String
  text : String
  border_radius : String := "4px"
  padding : String := "12px 24px"
  border : Option String := none
  hover_bg : Option String := none
  deriving DecidableEq

structure BrandButtons where
  primary : Option ButtonStyle := none
  secondary : Option ButtonStyle := none
  outline : Option ButtonStyle := none
  deriving DecidableEq

structure BrandData where
  url : String
  colors : BrandColors
  typography : BrandTypography
  spacing : BrandSpacing := {}
  buttons : BrandButtons := {}
  logo_url : Option String := none
  favicon_url : Option String := none
  screenshots : List String := []
  deriving DecidableEq

/-- Python truthiness of an optional string field: an absent value and an
empty string are both falsy. -/
def pyTruthy : Option String → Bool
  | none => false
  | some s => !s.isEmpty

/-! ## CSS variable synthesis (gemini.py, lines 28-50 and 132-137) -/

/-- Embeds `GeminiService._brand_to_css_variables`: sequential appends
guarded by Python truthiness of the optional fields, joined by newlines. -/
def brand_to_css_variables (brand : BrandData) : String :=
  let v := ["  --color-primary: " ++ brand.colors.primary ++ ";"]
  let v := v ++ (if pyTruthy brand.colors.secondary then
    ["  --color-secondary: " ++ brand.colors.secondary.getD "" ++ ";"] else [])
  let v := v ++ (if pyTruthy brand.colors.accent then
    ["  --color-accent: " ++ brand.colors.accent.getD "" ++ ";"] else [])
  let v := v ++ (if pyTruthy brand.colors.background then
    ["  --color-background: " ++ brand.colors.background.getD "" ++ ";"] else [])
  let v := v ++ (if pyTruthy brand.colors.text then
    ["  --color-text: " ++ brand.colors.text.getD "" ++ ";"] else [])
  let v := v ++ ["  --font-heading: " ++ brand.typography.headings ++ ";"]
  let v := v ++ ["  --font-body: " ++ brand.typography.body ++ ";"]
  let v := v ++ ["  --spacing-grid: " ++ brand.spacing.grid ++ ";"]
  let v := v ++ (match brand.buttons.primary with
    | some btn =>
      ["  --btn-primary-bg: " ++ btn.bg ++ ";",
       "  --btn-primary-text: " ++ btn.text ++ ";",
       "  --btn-primary-radius: " ++ btn.border_radius ++ ";"]
    | none => [])
  String.intercalate "\n" v

/-- Embeds the `full_css` assembly of `generate_replica` (lines 132-137):
the synthesized `:root` block, a blank line, then the parsed css body. -/
def generate_replica_css (brand : BrandData) (css : String) : String :=
  ":root \x7b\n" ++ brand_to_css_variables brand ++ "\n\x7d\n\n" ++ css

/-- Declaration list following the words of the specification for the
`:root` block: primary always; secondary, accent, background and text
whenever the corresponding color is present; heading font, body font,
spacing grid; the three button properties when a primary button style
exists. -/
def spec_css_decls (brand : BrandData) : List String :=
  ["  --color-primary: " ++ brand.colors.primary ++ ";"]
  ++ (match brand.colors.secondary with
      | some s => ["  --color-secondary: " ++ s ++ ";"]
      | none => [])
  ++ (match brand.colors.accent with
      | some s => ["  --color-accent: " ++ s ++ ";"]
      | none => [])
  ++ (match brand.colors.background with
      | some s => ["  --color-background: " ++ s ++ ";"]
      | none => [])
  ++ (match brand.colors.text with
      | some s => ["  --color-text: " ++ s ++ ";"]
      | none => [])
  ++ ["  --font-heading: " ++ brand.typography.headings ++ ";",
      "  --font-body: " ++ brand.typography.body ++ ";",
      "  --spacing-grid: " ++ brand.spacing.grid ++ ";"]
  ++ (match brand.buttons.primary with
      | some btn =>
        ["  --btn-primary-bg: " ++ btn.bg ++ ";",
         "  --btn-primary-text: " ++ btn.text ++ ";",
         "  --btn-primary-radius: " ++ btn.border_radius ++ ";"]
      | none => [])

/-- Declaration list as in `spec_css_decls` but with the amended condition:
an optional color is emitted when it is present AND non-empty (Python
truthiness), which is what the source tests. -/
def spec_css_decls_truthy (brand : BrandData) : List String :=
  ["  --color-primary: " ++ brand.colors.primary ++ ";"]
  ++ (if pyTruthy brand.colors.secondary then
      ["  --color-secondary: " ++ brand.colors.secondary.getD "" ++ ";"] else [])
  ++ (if pyTruthy brand.colors.accent then
      ["  --color-accent: " ++ brand.colors.accent.getD "" ++ ";"] else [])
  ++ (if pyTruthy brand.colors.background then
      ["  --color-background: " ++ brand.colors.background.getD "" ++ ";"] else [])
  ++ (if pyTruthy brand.colors.text then
      ["  --color-text: " ++ brand.colors.text.getD "" ++ ";"] else [])
  ++ ["  --font-heading: " ++ brand.typography.headings ++ ";",
      "  --font-body: " ++ brand.typography.body ++ ";",
      "  --spacing-grid: " ++ brand.spacing.grid ++ ";"]
  ++ (match brand.buttons.primary with
      | some btn =>
        ["  --btn-primary-bg: " ++ btn.bg ++ ";",
         "  --btn-primary-text: " ++ btn.text ++ ";",
         "  --btn-primary-radius: " ++ btn.border_radius ++ ";"]
      | none => [])

/-- C3 (amended): the css returned by `generate_replica` is always the
`:root` block of synthesized custom properties — one declaration per line
in the fixed order, an optional color emitted only when present and
non-empty — followed by a blank line and the parsed css body.  The
amendment tightens "present" to "present and non-empty": Python truthiness
also drops a present-but-empty color, see the counterexample. -/
theorem generate_replica_css_structure (brand : BrandData) (css : String) :
    generate_replica_css brand css =
      ":root \x7b\n" ++ String.intercalate "\n" (spec_css_decls_truthy brand) ++
        "\n\x7d\n\n" ++ css := by
  simp only [generate_replica_css, brand_to_css_variables,
    spec_css_decls_truthy, List.append_assoc, List.singleton_append,
    List.cons_append, List.nil_append]

/-- C3 counterexample: a brand whose secondary color is present but the
empty string gets no `--color-secondary` line, although the specification
emits one for every present color. -/
def c3Brand : BrandData :=
  { url := "https://example.com"
    colors := { primary := "#111111", secondary := some "" }
    typography := { headings := "Arial", body := "Helvetica" } }

theorem generate_replica_css_empty_secondary_cex :
    c3Brand.colors.secondary.isSome = true ∧
    generate_replica_css c3Brand "" ≠
      ":root \x7b\n" ++ String.intercalate "\n" (spec_css_decls c3Brand) ++
        "\n\x7d\n\n" ++ "" := by
  refine ⟨by decide, ?_⟩
  decide

/-! ## Brand comparison metrics (tools.py, lines 124-142)

The embedding covers the pure computation on the two extracted records:
the typography match flag, the font overlap and the difference list.
Python builds the overlap as `list(set1 & set2)`, whose iteration order is
unspecified; the embedding fixes one enumeration and the theorem below
characterizes the overlap only up to membership. -/

def compare_brands_metrics (b1 b2 : BrandData) :
    Bool × List String × List String :=
  let tm :=
    (b1.typography.headings.toLower == b2.typography.headings.toLower) ||
    (b1.typography.body.toLower == b2.typography.body.toLower)
  let fonts1 := [b1.typography.headings.toLower, b1.typography.body.toLower].dedup
  let fonts2 := [b2.typography.headings.toLower, b2.typography.body.toLower].dedup
  let overlap := fonts1.filter (fun f => fonts2.contains f)
  let differences :=
    (if b1.colors.primary = b2.colors.primary then []
     else ["Primary color: " ++ b1.colors.primary ++ " vs " ++
       b2.colors.primary]) ++
    (if b1.typography.headings.toLower = b2.typography.headings.toLower then []
     else ["Heading font: " ++ b1.typography.headings ++ " vs " ++
       b2.typography.headings]) ++
    (if b1.typography.body.toLower = b2.typography.body.toLower then []
     else ["Body font: " ++ b1.typography.body ++ " vs " ++
       b2.typography.body])
  (tm, overlap, differences)

/-- C4: the typography flag is an inclusive-or of case-insensitive font
equalities, the font overlap is the case-insensitive intersection of the
two lowercase font pairs, and the differences are appended in the fixed
order primary color (exact comparison), heading font, body font
(case-insensitive comparisons, original-case strings in the message), each
only when the values differ. -/
theorem compare_brands_metrics_spec (b1 b2 : BrandData) :
    ((compare_brands_metrics b1 b2).1 = true ↔
      (b1.typography.headings.toLower = b2.typography.headings.toLower ∨
       b1.typography.body.toLower = b2.typography.body.toLower)) ∧
    (∀ s, s ∈ (compare_brands_metrics b1 b2).2.1 ↔
      ((s = b1.typography.headings.toLower ∨
        s = b1.typography.body.toLower) ∧
       (s = b2.typography.headings.toLower ∨
        s = b2.typography.body.toLower))) ∧
    (compare_brands_metrics b1 b2).2.2 =
      (if b1.colors.primary = b2.colors.primary then []
       else ["Primary color: " ++ b1.colors.primary ++ " vs " ++
         b2.colors.primary]) ++
      (if b1.typography.headings.toLower = b2.typography.headings.toLower
       then []
       else ["Heading font: " ++ b1.typography.headings ++ " vs " ++
         b2.typography.headings]) ++
      (if b1.typography.body.toLower = b2.typography.body.toLower then []
       else ["Body font: " ++ b1.typography.body ++ " vs " ++
         b2.typography.body]) := by
  refine ⟨?_, ?_, rfl⟩
  · simp [compare_brands_metrics]
  · intro s
    simp only [compare_brands_metrics, List.mem_filter, List.mem_dedup,
      List.contains, List.elem_iff, decide_eq_true_eq, List.mem_cons,
      List.mem_singleton, List.not_mem_nil, or_false]

/-! ## Brand record normalization (firecrawl.py, lines 139-185)

The raw extraction payload returned by the scraping service is a nested
dictionary of optional sections; each dictionary is a structure of
`Option` fields, where `none` models an absent key.  `hasExtraKeys`
records whether a raw button object carries unrecognized keys, which is
only relevant for its Python truthiness (an empty dict is falsy). -/

structure RawColors where
  primary : Option String := none
  secondary : Option String := none
  accent : Option String := none
  background : Option String := none
  text : Option String := none
  palette : Option (List String) := none
  deriving DecidableEq

structure RawTypography where
  headings : Option String := none
  body : Option String := none
  weights : Option (List Int) := none
  deriving DecidableEq

structure RawButton where
  bg : Option String := none
  text : Option String := none
  border_radius : Option String := none
  padding : Option String := none
  hasExtraKeys : Bool := false
  deriving DecidableEq

/-- Python truthiness of the raw button dict: an empty dict is falsy. -/
def RawButton.isEmptyDict (b : RawButton) : Bool :=
  b.bg.isNone && b.text.isNone && b.border_radius.isNone &&
    b.padding.isNone && !b.hasExtraKeys

structure RawButtons where
  primary : Option RawButton := none
  deriving DecidableEq

structure RawExtract where
  colors : Option RawColors := none
  typography : Option RawTypography := none
  buttons : Option RawButtons := none
  logo_url : Option String := none
  favicon_url : Option String := none
  deriving DecidableEq

/-- Embeds the normalization in `FirecrawlService.extract_brand` (lines
139-185): `dict.get` with a default becomes `Option.getD`; the primary
button is built only when the raw `buttons.primary` value is truthy, and
its missing fields default to the normalized primary color, `#ffffff`,
`4px` and `12px 24px`. -/
def extract_brand_normalize (url : String) (extracted : RawExtract)
    (screenshots : List String) : BrandData :=
  let colors_data := extracted.colors.getD {}
  let colors : BrandColors :=
    { primary := colors_data.primary.getD "#000000"
      secondary := colors_data.secondary
      accent := colors_data.accent
      background := colors_data.background
      text := colors_data.text
      palette := colors_data.palette.getD [] }
  let typo_data := extracted.typography.getD {}
  let typography : BrandTypography :=
    { headings := typo_data.headings.getD "sans-serif"
      body := typo_data.body.getD "sans-serif"
      weights := typo_data.weights.getD [400, 600, 700] }
  let spacing : BrandSpacing := {}
  let buttons_data := extracted.buttons.getD {}
  let buttons : BrandButtons :=
    match buttons_data.primary with
    | some btn =>
      if btn.isEmptyDict then {}
      else
        { primary := some
            { bg := btn.bg.getD colors.primary
              text := btn.text.getD "#ffffff"
              border_radius := btn.border_radius.getD "4px"
              padding := btn.padding.getD "12px 24px" } }
    | none => {}
  { url := url
    colors := colors
    typography := typography
    spacing := spacing
    buttons := buttons
    logo_url := extracted.logo_url
    favicon_url := extracted.favicon_url
    screenshots := screenshots }

/-- C5: the minimal payload with only a primary color and the two font
families yields the weight default `[400, 600, 700]`, the spacing grid
default `8px` and no primary button; and for every payload a missing
`colors.primary` defaults to `#000000` while missing `typography.headings`
or `typography.body` default to `sans-serif`. -/
theorem extract_brand_defaults :
    ((extract_brand_normalize "https://example.com"
        { colors := some { primary := some "#FF0000" },
          typography := some { headings := some "Arial",
                               body := some "Helvetica" } }
        []).typography.weights = [400, 600, 700] ∧
     (extract_brand_normalize "https://example.com"
        { colors := some { primary := some "#FF0000" },
          typography := some { headings := some "Arial",
                               body := some "Helvetica" } }
        []).spacing.grid = "8px" ∧
     (extract_brand_normalize "https://example.com"
        { colors := some { primary := some "#FF0000" },
          typography := some { headings := some "Arial",
                               body := some "Helvetica" } }
        []).buttons.primary = none) ∧
    (∀ (url : String) (e : RawExtract) (ss : List String),
      ((e.colors.getD {}).primary = none →
        (extract_brand_normalize url e ss).colors.primary = "#000000") ∧
      ((e.typography.getD {}).headings = none →
        (extract_brand_normalize url e ss).typography.headings =
          "sans-serif") ∧
      ((e.typography.getD {}).body = none →
        (extract_brand_normalize url e ss).typography.body =
          "sans-serif")) := by
  refine ⟨⟨by decide, by decide, by decide⟩, ?_⟩
  intro url e ss
  refine ⟨?_, ?_, ?_⟩
  · intro h
    show ((e.colors.getD {}).primary.getD "#000000") = "#000000"
    rw [h]
    rfl
  · intro h
    show ((e.typography.getD {}).headings.getD "sans-serif") = "sans-serif"
    rw [h]
    rfl
  · intro h
    show ((e.typography.getD {}).body.getD "sans-serif") = "sans-serif"
    rw [h]
    rfl

theorem extract_brand_defaults_example :
    (extract_brand_normalize "https://example.org" {} []).colors.primary =
      "#000000" ∧
    (extract_brand_normalize "https://example.org" {} []).typography.headings =
      "sans-serif" ∧
    (extract_brand_normalize "https://example.org" {} []).typography.body =
      "sans-serif" :=
  ⟨(extract_brand_defaults.2 "https://example.org" {} []).1 rfl,
   (extract_brand_defaults.2 "https://example.org" {} []).2.1 rfl,
   (extract_brand_defaults.2 "https://example.org" {} []).2.2 rfl⟩

/-- C6 (amended): for every payload whose `buttons.primary` object is
non-empty (Python truthiness of the raw dict), the normalized style
defaults a missing `bg` to the normalized primary color, a missing `text`
to `#ffffff`, a missing `border_radius` to `4px` and a missing `padding`
to `12px 24px`.  The amendment adds non-emptiness: the source skips an
empty `buttons.primary` dict entirely, see the counterexample. -/
theorem extract_brand_button_defaults (url : String) (e : RawExtract)
    (ss : List String) (btn : RawButton)
    (hp : (e.buttons.getD {}).primary = some btn)
    (hne : btn.isEmptyDict = false) :
    (extract_brand_normalize url e ss).buttons.primary = some
      { bg := btn.bg.getD ((e.colors.getD {}).primary.getD "#000000"),
        text := btn.text.getD "#ffffff",
        border_radius := btn.border_radius.getD "4px",
        padding := btn.padding.getD "12px 24px" } := by
  show (match (e.buttons.getD {}).primary with
    | some btn =>
      if btn.isEmptyDict then ({} : BrandButtons)
      else
        { primary := some
            { bg := btn.bg.getD ((e.colors.getD {}).primary.getD "#000000")
              text := btn.text.getD "#ffffff"
              border_radius := btn.border_radius.getD "4px"
              padding := btn.padding.getD "12px 24px" } }
    | none => ({} : BrandButtons)).primary = _
  rw [hp]
  simp [hne]

theorem extract_brand_button_defaults_example :
    (({ buttons := some { primary := some { padding := some "2px" } } } :
        RawExtract).buttons.getD {}).primary =
      some ({ padding := some "2px" } : RawButton) ∧
    ({ padding := some "2px" } : RawButton).isEmptyDict = false ∧
    (extract_brand_normalize "https://example.com"
      { buttons := some { primary := some { padding := some "2px" } } }
      []).buttons.primary =
      some { bg := "#000000", text := "#ffffff", border_radius := "4px",
             padding := "2px" } :=
  ⟨by decide, by decide,
   (extract_brand_button_defaults "https://example.com"
     { buttons := some { primary := some { padding := some "2px" } } }
     [] { padding := some "2px" } (by decide) (by decide)).trans (by decide)⟩

/-- C6 counterexample: a payload that supplies an empty `buttons.primary`
object is falsy in Python, so the source produces no primary button style
at all instead of one with all the documented defaults. -/
def c6Payload : RawExtract := { buttons := some { primary := some {} } }

theorem extract_brand_empty_button_cex :
    (c6Payload.buttons.getD {}).primary = some ({} : RawButton) ∧
    (extract_brand_normalize "https://example.net" c6Payload
      []).buttons.primary = none ∧
    (extract_brand_normalize "https://example.net" c6Payload
      []).buttons.primary ≠
      some { bg := "#000000", text := "#ffffff", border_radius := "4px",
             padding := "12px 24px" } := by
  refine ⟨by decide, by decide, by decide⟩
